import Mathlib

/-!
# Verification of the ruukh-ui virtual-DOM core

A shallow embedding of the reconciliation core of the `ruukh-ui` repository:

* `src/dom_ruukh/src/lib.rs` — the `Key` identity type with its integer/string
  conversions, the `KeyedVNodes` / `VNode` node model and its dispatch-level
  `patch` logic (the `patch!` macro and the two `DOMPatch` impls), and the
  `Display` impls.
* `src/src/component.rs` — the `Status` cell with its dirty-flag protocol, and
  the `Component::update` contract.

Rust machine integers are embedded as `Int` / `Nat` with explicit wrapping for
the `as` casts.  Stateful methods (`&mut self`) are embedded as explicit
state-passing functions returning the updated value.  The patch pass is
embedded as a function from the new/old trees to the list of DOM-affecting
events it issues, at the dispatch granularity of `lib.rs` (the leaf node types
live in modules that are not part of the corpus, so a leaf's own patch and
remove are recorded as single abstract events).
-/

/-! ## Key (src/dom_ruukh/src/lib.rs, `pub enum Key`)

`Key::I64` holds a Rust `i64` (embedded as `Int`, kept in range by the
conversions) and `Key::U64` a `u64` (embedded as `Nat`). -/

/-- `Key` from `src/dom_ruukh/src/lib.rs`: keys identify a VNode in the VDOM.
`I64`/`U64` payloads are the mathematical values of the machine integers. -/
inductive Key : Type where
  /-- An `i64` key. -/
  | I64 (n : Int)
  /-- A `u64` key. -/
  | U64 (n : Nat)
  /-- A `String` key. -/
  | Str (s : String)
deriving DecidableEq, Repr

/-- The `#[derive(PartialEq)]` equality on `Key`: compare within the same
variant only; distinct variants are never equal. -/
def keyEq : Key → Key → Bool
  | Key.I64 a, Key.I64 b => a == b
  | Key.U64 a, Key.U64 b => a == b
  | Key.Str a, Key.Str b => a == b
  | _, _ => false

/-- The value of a Rust `as i64` cast: wrap into `[-2^63, 2^63)`. -/
def wrapI64 (n : Int) : Int := (n + 2 ^ 63) % 2 ^ 64 - 2 ^ 63

/-- The value of a Rust `as u64` cast: wrap into `[0, 2^64)`. -/
def wrapU64 (n : Nat) : Nat := n % 2 ^ 64

/-- `impl From<i8> for Key` (via the `convert!([i8, i16, i32, i64] to I64)`
macro): `Key::I64(num as i64)`.  The argument is the value of the `i8`. -/
def Key.fromI8 (num : Int) : Key := Key.I64 (wrapI64 num)

/-- `impl From<i16> for Key`: `Key::I64(num as i64)`. -/
def Key.fromI16 (num : Int) : Key := Key.I64 (wrapI64 num)

/-- `impl From<i32> for Key`: `Key::I64(num as i64)`. -/
def Key.fromI32 (num : Int) : Key := Key.I64 (wrapI64 num)

/-- `impl From<i64> for Key`: `Key::I64(num as i64)`. -/
def Key.fromI64 (num : Int) : Key := Key.I64 (wrapI64 num)

/-- `impl From<u8> for Key` (via the `convert!([u8, u16, u32, u64] to U64)`
macro): `Key::U64(num as u64)`.  The argument is the value of the `u8`. -/
def Key.fromU8 (num : Nat) : Key := Key.U64 (wrapU64 num)

/-- `impl From<u16> for Key`: `Key::U64(num as u64)`. -/
def Key.fromU16 (num : Nat) : Key := Key.U64 (wrapU64 num)

/-- `impl From<u32> for Key`: `Key::U64(num as u64)`. -/
def Key.fromU32 (num : Nat) : Key := Key.U64 (wrapU64 num)

/-- `impl From<u64> for Key`: `Key::U64(num as u64)`. -/
def Key.fromU64 (num : Nat) : Key := Key.U64 (wrapU64 num)

/-- `impl From<String> for Key`: `Key::String(string)`. -/
def Key.fromString (string : String) : Key := Key.Str string

/-- Sign-extension within range is the identity: wrapping an in-range value
into the `i64` range returns it unchanged. -/
theorem wrapI64_eq_of_range (n : Int) (hlo : -(2 ^ 63) ≤ n) (hhi : n < 2 ^ 63) :
    wrapI64 n = n := by
  unfold wrapI64
  omega

/-- Zero-extension within range is the identity. -/
theorem wrapU64_eq_of_range (n : Nat) (h : n < 2 ^ 64) : wrapU64 n = n := by
  unfold wrapU64
  omega

/-- C4: the `Key` conversions choose the variant by the source type alone;
every signed width sign-extends into `Key::I64` preserving the value, every
unsigned width zero-extends into `Key::U64` preserving the value. -/
theorem key_conversion_by_type (n : Int) (m : Nat) :
    (-(2 ^ 7) ≤ n → n < 2 ^ 7 → Key.fromI8 n = Key.I64 n) ∧
    (-(2 ^ 15) ≤ n → n < 2 ^ 15 → Key.fromI16 n = Key.I64 n) ∧
    (-(2 ^ 31) ≤ n → n < 2 ^ 31 → Key.fromI32 n = Key.I64 n) ∧
    (-(2 ^ 63) ≤ n → n < 2 ^ 63 → Key.fromI64 n = Key.I64 n) ∧
    (m < 2 ^ 8 → Key.fromU8 m = Key.U64 m) ∧
    (m < 2 ^ 16 → Key.fromU16 m = Key.U64 m) ∧
    (m < 2 ^ 32 → Key.fromU32 m = Key.U64 m) ∧
    (m < 2 ^ 64 → Key.fromU64 m = Key.U64 m) := by
  refine ⟨?_, ?_, ?_, ?_, ?_, ?_, ?_, ?_⟩ <;> intro h1
  case _ => intro h2
            exact congrArg Key.I64 (wrapI64_eq_of_range n (by omega) (by omega))
  case _ => intro h2
            exact congrArg Key.I64 (wrapI64_eq_of_range n (by omega) (by omega))
  case _ => intro h2
            exact congrArg Key.I64 (wrapI64_eq_of_range n (by omega) (by omega))
  case _ => intro h2
            exact congrArg Key.I64 (wrapI64_eq_of_range n (by omega) (by omega))
  case _ => exact congrArg Key.U64 (wrapU64_eq_of_range m (by omega))
  case _ => exact congrArg Key.U64 (wrapU64_eq_of_range m (by omega))
  case _ => exact congrArg Key.U64 (wrapU64_eq_of_range m (by omega))
  case _ => exact congrArg Key.U64 (wrapU64_eq_of_range m (by omega))

/-- Witness for C4 at concrete inputs: `-5i8` becomes `Key::I64(-5)` and
`7u8` becomes `Key::U64(7)`. -/
theorem key_conversion_by_type_witness :
    Key.fromI8 (-5) = Key.I64 (-5) ∧ Key.fromU8 7 = Key.U64 7 :=
  ⟨(key_conversion_by_type (-5) 7).1 (by decide) (by decide),
   (key_conversion_by_type (-5) 7).2.2.2.2.1 (by decide)⟩

/-- C5: derived `Key` equality is variant-and-value exact — `keyEq` decides
propositional (structural) equality, and an `I64` key is never equal to a
`U64` key even when the payloads denote the same number. -/
theorem key_equality_structural :
    (∀ k₁ k₂ : Key, keyEq k₁ k₂ = true ↔ k₁ = k₂) ∧
    (∀ (n : Int) (m : Nat), n = (m : Int) → keyEq (Key.I64 n) (Key.U64 m) = false) := by
  constructor
  · intro k₁ k₂
    cases k₁ <;> cases k₂ <;> simp [keyEq]
  · intro n m _
    rfl

/-! ## Node model (src/dom_ruukh/src/lib.rs)

The leaf payload types `VText`, `VElement`, `VList`, `VComponent` live in the
modules `vtext`, `velement`, `vlist`, `vcomponent`, which are not part of the
corpus; only what the dispatch logic of `lib.rs` needs is modelled. -/

/-- Modelled from the spec: `VText` (module `vtext` is missing from the
corpus) — "*Text*: holds a string payload"; the backing-node link is
irrelevant to the dispatch-level claims and omitted. -/
structure VText where
  /-- The string payload. -/
  text : String
deriving DecidableEq, Repr

/-- Modelled from the spec: `VElement` (module `velement` is missing from the
corpus) — "*Element*: holds a tag name, … attribute pairs, a child subtree";
everything beyond the tag is abstracted to an opaque identifier, since the
dispatch-level claims never inspect it. -/
structure VElement where
  /-- The tag name. -/
  tag : String
  /-- Opaque stand-in for attributes, children and backing-node link. -/
  contents : Nat
deriving DecidableEq, Repr

/-- Modelled from the spec: `VList` (module `vlist` is missing from the
corpus) — its child sequence is abstracted to an opaque identifier. -/
structure VList where
  /-- Opaque stand-in for the keyed child sequence. -/
  contents : Nat
deriving DecidableEq, Repr

/-- Modelled from the spec: `VComponent` (module `vcomponent` is missing from
the corpus) — the component instance and cached subtree are abstracted to an
opaque identifier. -/
structure VComponent where
  /-- Opaque stand-in for the component instance and cached subtree. -/
  contents : Nat
deriving DecidableEq, Repr

/-- `VNode` from `src/dom_ruukh/src/lib.rs`: a virtual node in a virtual DOM
tree, with `Text`, `Element`, `List` and `Component` variants. -/
inductive VNode : Type where
  /-- A text vnode. -/
  | text (v : VText)
  /-- An element vnode. -/
  | element (v : VElement)
  /-- A list vnode. -/
  | list (v : VList)
  /-- A component vnode. -/
  | component (v : VComponent)
deriving DecidableEq, Repr

/-- The four node kinds (variants of `VNode`). -/
inductive NodeKind : Type where
  /-- Kind of `VNode::Text`. -/
  | text
  /-- Kind of `VNode::Element`. -/
  | element
  /-- Kind of `VNode::List`. -/
  | list
  /-- Kind of `VNode::Component`. -/
  | component
deriving DecidableEq, Repr

/-- The variant tag of a `VNode`. -/
def VNode.kind : VNode → NodeKind
  | VNode.text _ => NodeKind.text
  | VNode.element _ => NodeKind.element
  | VNode.list _ => NodeKind.list
  | VNode.component _ => NodeKind.component

/-- `KeyedVNodes` from `src/dom_ruukh/src/lib.rs`: pairs an optional `Key`
with a `VNode`. -/
structure KeyedVNodes where
  /-- A uniquely identifying key in the list of vnodes. -/
  key : Option Key
  /-- A virtual node. -/
  vnode : VNode
deriving DecidableEq, Repr

/-- `KeyedVNodes::keyed`: constructor for a keyed VNode. -/
def KeyedVNodes.keyed (key : Key) (vnode : VNode) : KeyedVNodes :=
  { key := some key, vnode := vnode }

/-- `KeyedVNodes::unkeyed`: constructor for an unkeyed VNode. -/
def KeyedVNodes.unkeyed (vnode : VNode) : KeyedVNodes :=
  { key := none, vnode := vnode }

/-! ## Patch dispatch (src/dom_ruukh/src/lib.rs, `DOMPatch` impls)

A patch pass is embedded as the list of events it issues, in order.  The leaf
types' own `patch` and `remove` implementations are outside the corpus, so a
call into a leaf is one abstract event recording the arguments the dispatch
handed it (the new node, and the matched old node or `None`). -/

/-- An event issued by the dispatch level of a patch pass. -/
inductive PatchEvent : Type where
  /-- `old.remove(parent)` was called on this old node (full subtree
  teardown). -/
  | removed (old : VNode)
  /-- The new leaf's own `patch` was called with this old counterpart
  (`some` = in-place diff against the matched old leaf, `none` = fresh
  mount). -/
  | patched (new : VNode) (old : Option VNode)
deriving DecidableEq, Repr

/-- `<VNode as DOMPatch>::patch` from `src/dom_ruukh/src/lib.rs`: matches on
the new node's variant, then the `patch!` macro matches the old node — same
variant patches the leaf in place, a different variant removes the old node
and patches the leaf with `None`, and an absent old node patches the leaf
with `None`. -/
def VNode.patch : VNode → Option VNode → List PatchEvent
  | VNode.element new_el, old =>
    match old with
    | some (VNode.element o) =>
      [PatchEvent.patched (VNode.element new_el) (some (VNode.element o))]
    | some o => [PatchEvent.removed o, PatchEvent.patched (VNode.element new_el) none]
    | none => [PatchEvent.patched (VNode.element new_el) none]
  | VNode.text new_txt, old =>
    match old with
    | some (VNode.text o) =>
      [PatchEvent.patched (VNode.text new_txt) (some (VNode.text o))]
    | some o => [PatchEvent.removed o, PatchEvent.patched (VNode.text new_txt) none]
    | none => [PatchEvent.patched (VNode.text new_txt) none]
  | VNode.list new_li, old =>
    match old with
    | some (VNode.list o) =>
      [PatchEvent.patched (VNode.list new_li) (some (VNode.list o))]
    | some o => [PatchEvent.removed o, PatchEvent.patched (VNode.list new_li) none]
    | none => [PatchEvent.patched (VNode.list new_li) none]
  | VNode.component new_comp, old =>
    match old with
    | some (VNode.component o) =>
      [PatchEvent.patched (VNode.component new_comp) (some (VNode.component o))]
    | some o => [PatchEvent.removed o, PatchEvent.patched (VNode.component new_comp) none]
    | none => [PatchEvent.patched (VNode.component new_comp) none]

/-- `<KeyedVNodes as DOMPatch>::patch` from `src/dom_ruukh/src/lib.rs`: with
an old node present, equal keys patch the inner vnode against the old inner
vnode; unequal keys remove the old vnode and patch the new vnode with `None`;
an absent old node patches the new vnode with `None`. -/
def KeyedVNodes.patch (self : KeyedVNodes) (old : Option KeyedVNodes) : List PatchEvent :=
  match old with
  | some old =>
    if self.key = old.key then
      self.vnode.patch (some old.vnode)
    else
      PatchEvent.removed old.vnode :: self.vnode.patch none
  | none => self.vnode.patch none

/-! ## Display (src/dom_ruukh/src/lib.rs, `impl Display`) -/

/-- Modelled from the spec: the leaf `Display` impls live in the missing leaf
modules; per the in-crate test (`format!("{}", unkeyed(VText::text("Hello
World!"))) == "Hello World!"`) a text node displays its payload, and the other
leaves display some fixed rendering of their contents. -/
def VText.display (t : VText) : String := t.text

/-- Modelled from the spec: abstract rendering of a `VElement` (its `Display`
impl is in the missing `velement` module). -/
def VElement.display (e : VElement) : String := e.tag ++ toString e.contents

/-- Modelled from the spec: abstract rendering of a `VList` (its `Display`
impl is in the missing `vlist` module). -/
def VList.display (l : VList) : String := toString l.contents

/-- Modelled from the spec: abstract rendering of a `VComponent` (its
`Display` impl is in the missing `vcomponent` module). -/
def VComponent.display (c : VComponent) : String := toString c.contents

/-- `impl Display for VNode`: dispatches to the inner leaf's `Display`. -/
def VNode.display : VNode → String
  | VNode.text inner => inner.display
  | VNode.element inner => inner.display
  | VNode.list inner => inner.display
  | VNode.component inner => inner.display

/-- `impl Display for KeyedVNodes`: `write!(f, "{}", self.vnode)` — formats
only the inner vnode, ignoring the key. -/
def KeyedVNodes.display (kv : KeyedVNodes) : String := kv.vnode.display

/-! ## Theorems about the patch dispatch -/

/-- C1: patching a `VNode` against an old node of a different variant always
removes the old subtree first and then patches the new leaf with no old
counterpart; no event of the pass patches a leaf in place (with a `some` old
counterpart). -/
theorem vnode_patch_kind_mismatch (new old : VNode) (h : new.kind ≠ old.kind) :
    new.patch (some old) = [PatchEvent.removed old, PatchEvent.patched new none] ∧
    ∀ x y, PatchEvent.patched x (some y) ∉ new.patch (some old) := by
  cases new <;> cases old <;>
    simp [VNode.kind] at h <;>
    simp [VNode.patch]

/-- Witness for C1: patching a new `Text` node against an old `Element` node
produces exactly the destroy-then-fresh-mount event sequence. -/
theorem vnode_patch_kind_mismatch_witness :
    (VNode.text ⟨"a"⟩).patch (some (VNode.element ⟨"div", 0⟩)) =
      [PatchEvent.removed (VNode.element ⟨"div", 0⟩),
       PatchEvent.patched (VNode.text ⟨"a"⟩) none] :=
  (vnode_patch_kind_mismatch (VNode.text ⟨"a"⟩) (VNode.element ⟨"div", 0⟩)
    (by decide)).1

/-- C2: patching a `KeyedVNodes` against a present old node patches the inner
vnode in place when the keys are equal, and removes the old vnode first and
patches the new vnode with no old counterpart when they differ; key equality
holds iff both keys are `None` or both are `Some` of equal keys. -/
theorem keyedvnodes_patch_by_key (self old : KeyedVNodes) :
    (self.key = old.key →
      self.patch (some old) = self.vnode.patch (some old.vnode)) ∧
    (self.key ≠ old.key →
      self.patch (some old) =
        PatchEvent.removed old.vnode :: self.vnode.patch none) ∧
    (self.key = old.key ↔
      (self.key = none ∧ old.key = none) ∨
      ∃ k, self.key = some k ∧ old.key = some k) := by
  refine ⟨fun h => ?_, fun h => ?_, ?_⟩
  · simp [KeyedVNodes.patch, h]
  · simp [KeyedVNodes.patch, h]
  · cases hs : self.key <;> cases ho : old.key <;> simp [eq_comm]

/-- Witness for C2: a keyed slot whose key changed from `U64 2` to `U64 1`
removes the old text node and freshly patches the new one. -/
theorem keyedvnodes_patch_by_key_witness :
    (KeyedVNodes.mk (some (Key.U64 1)) (VNode.text ⟨"a"⟩)).patch
        (some (KeyedVNodes.mk (some (Key.U64 2)) (VNode.text ⟨"b"⟩))) =
      [PatchEvent.removed (VNode.text ⟨"b"⟩),
       PatchEvent.patched (VNode.text ⟨"a"⟩) none] := by
  have h := (keyedvnodes_patch_by_key
    (KeyedVNodes.mk (some (Key.U64 1)) (VNode.text ⟨"a"⟩))
    (KeyedVNodes.mk (some (Key.U64 2)) (VNode.text ⟨"b"⟩))).2.1 (by decide)
  simpa [VNode.patch] using h

/-- C6: with no old counterpart, both patch operations behave as a fresh
mount — the `KeyedVNodes` patch delegates to the inner vnode's patch with
`None`, the `VNode` patch issues exactly one fresh-mount event for the new
leaf, and neither removes anything. -/
theorem patch_absent_old_mounts_fresh (kv : KeyedVNodes) (v : VNode) :
    kv.patch none = kv.vnode.patch none ∧
    v.patch none = [PatchEvent.patched v none] ∧
    (∀ w, PatchEvent.removed w ∉ kv.patch none) ∧
    (∀ w, PatchEvent.removed w ∉ v.patch none) := by
  refine ⟨rfl, ?_, ?_, ?_⟩
  · cases v <;> rfl
  · intro w
    show PatchEvent.removed w ∉ kv.vnode.patch none
    cases kv.vnode <;> simp [VNode.patch]
  · intro w
    cases v <;> simp [VNode.patch]

/-- C10: displaying a `KeyedVNodes` ignores the key — `keyed k v` and
`unkeyed v` display identically, and both equal the display of the inner
vnode. -/
theorem keyedvnodes_display_ignores_key (k : Key) (v : VNode) :
    (KeyedVNodes.keyed k v).display = v.display ∧
    (KeyedVNodes.unkeyed v).display = v.display ∧
    (KeyedVNodes.keyed k v).display = (KeyedVNodes.unkeyed v).display :=
  ⟨rfl, rfl, rfl⟩

/-! ## Status cell (src/src/component.rs, `pub struct Status<T>`)

`MessageSender` is defined in the crate root, which is not part of the
corpus; it is abstracted as a type parameter `M` (the dirty-flag methods
never inspect it).  Each `&mut self` method returns the updated cell
alongside its result. -/

/-- `Status<T>` from `src/src/component.rs`: stores the component's state
together with the two dirty flags and the change-notification sender. -/
structure Status (T M : Type) where
  /-- The component's mutable state. -/
  state : T
  /-- Whether the state has been mutated since the last take. -/
  state_dirty : Bool
  /-- Whether the props were updated since the last take. -/
  props_dirty : Bool
  /-- The change-notification sender (`MessageSender`, abstracted). -/
  rx_sender : M
deriving DecidableEq, Repr

/-- `Status::new`: creates a new status with the given state and message
sender; both dirty flags start `false`. -/
def Status.new {T M : Type} (state : T) (rx_sender : M) : Status T M :=
  { state := state, state_dirty := false, props_dirty := false,
    rx_sender := rx_sender }

/-- `Status::mark_state_dirty`: sets `state_dirty` to `true`. -/
def Status.mark_state_dirty {T M : Type} (s : Status T M) : Status T M :=
  { s with state_dirty := true }

/-- `Status::take_state_dirty`: if `state_dirty` is set, clears it and
returns `true`; otherwise returns `false`.  The pair is (returned bool,
updated cell). -/
def Status.take_state_dirty {T M : Type} (s : Status T M) : Bool × Status T M :=
  if s.state_dirty then
    (true, { s with state_dirty := false })
  else
    (false, s)

/-- `Status::mark_props_dirty`: sets `props_dirty` to `true`. -/
def Status.mark_props_dirty {T M : Type} (s : Status T M) : Status T M :=
  { s with props_dirty := true }

/-- `Status::take_props_dirty`: if `props_dirty` is set, clears it and
returns `true`; otherwise returns `false`. -/
def Status.take_props_dirty {T M : Type} (s : Status T M) : Bool × Status T M :=
  if s.props_dirty then
    (true, { s with props_dirty := false })
  else
    (false, s)

/-- C3: the take methods read and clear their flag — each returns the current
flag value and leaves it `false`; after a mark, the first take returns `true`
and a second take without an intervening mark returns `false`, for state and
props alike. -/
theorem status_take_read_and_clear {T M : Type} (s : Status T M) :
    (s.take_state_dirty.1 = s.state_dirty ∧
     s.take_state_dirty.2.state_dirty = false ∧
     s.mark_state_dirty.take_state_dirty.1 = true ∧
     s.mark_state_dirty.take_state_dirty.2.take_state_dirty.1 = false) ∧
    (s.take_props_dirty.1 = s.props_dirty ∧
     s.take_props_dirty.2.props_dirty = false ∧
     s.mark_props_dirty.take_props_dirty.1 = true ∧
     s.mark_props_dirty.take_props_dirty.2.take_props_dirty.1 = false) := by
  refine ⟨⟨?_, ?_, rfl, rfl⟩, ⟨?_, ?_, rfl, rfl⟩⟩ <;>
    · cases hs : s.state_dirty <;> cases hp : s.props_dirty <;>
        simp [Status.take_state_dirty, Status.take_props_dirty, hs, hp]

/-- C8: a freshly constructed cell is clean — `Status::new` sets both dirty
flags to `false`, so the first takes both return `false`. -/
theorem status_new_clean {T M : Type} (state : T) (rx : M) :
    (Status.new state rx).state_dirty = false ∧
    (Status.new state rx).props_dirty = false ∧
    (Status.new state rx).take_state_dirty.1 = false ∧
    (Status.new state rx).take_props_dirty.1 = false :=
  ⟨rfl, rfl, rfl, rfl⟩

/-- C9: the two dirty flags are independent — the state-dirty methods touch
only `state_dirty` (state, `props_dirty` and `rx_sender` are unchanged), and
the props-dirty methods touch only `props_dirty`. -/
theorem status_flags_independent {T M : Type} (s : Status T M) :
    (s.mark_state_dirty.state = s.state ∧
     s.mark_state_dirty.props_dirty = s.props_dirty ∧
     s.mark_state_dirty.rx_sender = s.rx_sender) ∧
    (s.take_state_dirty.2.state = s.state ∧
     s.take_state_dirty.2.props_dirty = s.props_dirty ∧
     s.take_state_dirty.2.rx_sender = s.rx_sender) ∧
    (s.mark_props_dirty.state = s.state ∧
     s.mark_props_dirty.state_dirty = s.state_dirty ∧
     s.mark_props_dirty.rx_sender = s.rx_sender) ∧
    (s.take_props_dirty.2.state = s.state ∧
     s.take_props_dirty.2.state_dirty = s.state_dirty ∧
     s.take_props_dirty.2.rx_sender = s.rx_sender) := by
  refine ⟨⟨rfl, rfl, rfl⟩, ?_, ⟨rfl, rfl, rfl⟩, ?_⟩ <;>
    · cases hs : s.state_dirty <;> cases hp : s.props_dirty <;>
        simp [Status.take_state_dirty, Status.take_props_dirty, hs, hp]

/-! ## Component update (src/src/component.rs, `Component::update`)

`Component::update` is a trait method whose implementations are generated by
the `#[component]` macro; no implementation is in the corpus (the only
in-corpus impl, for `RootParent`, is `unreachable!`). -/

/-- Modelled from the spec: a `#[component]`-generated component struct — prop
fields (`P`, compared as a whole, i.e. field-for-field), the events value
(`E`), and the shared status cell. -/
structure ModelComponent (P E S M : Type) where
  /-- The prop fields. -/
  props : P
  /-- The `Self::Events` value passed by the parent. -/
  events : E
  /-- The status cell (state metadata and dirty flags). -/
  status : Status S M

/-- Modelled from the spec: `Component::update` — "compares new props against
current field-by-field; if any differ, marks a props-dirty flag in the status
cell and returns the previous props …; events are replaced unconditionally".
The pair is (returned `Option<Props>`, updated component). -/
def ModelComponent.update {P E S M : Type} [DecidableEq P]
    (c : ModelComponent P E S M) (props : P) (events : E) :
    Option P × ModelComponent P E S M :=
  if c.props = props then
    (none, { c with events := events })
  else
    (some c.props, { c with props := props, events := events,
                            status := c.status.mark_props_dirty })

/-- C7: `update` replaces the events unconditionally; with field-for-field
equal props it returns `None` and leaves the props-dirty flag unchanged; with
any differing field it returns the prior props, stores the new props, and
sets the props-dirty flag. -/
theorem component_update_props_comparison {P E S M : Type} [DecidableEq P]
    (c : ModelComponent P E S M) (p : P) (e : E) :
    (c.update p e).2.events = e ∧
    (c.props = p →
      (c.update p e).1 = none ∧
      (c.update p e).2.status.props_dirty = c.status.props_dirty) ∧
    (c.props ≠ p →
      (c.update p e).1 = some c.props ∧
      (c.update p e).2.props = p ∧
      (c.update p e).2.status.props_dirty = true) := by
  refine ⟨?_, fun h => ?_, fun h => ?_⟩
  · unfold ModelComponent.update
    split <;> rfl
  · simp [ModelComponent.update, h]
  · simp [ModelComponent.update, h, Status.mark_props_dirty]

/-- Witness for C7 at concrete inputs (`P = E = Nat`): updating props `0`
to `1` returns the old props and sets props-dirty; updating `1` to `1`
returns `None` and leaves the flag clear. -/
theorem component_update_props_comparison_witness :
    ((ModelComponent.mk 0 0 (Status.new 0 0) : ModelComponent Nat Nat Nat Nat).update
        1 5).1 = some 0 ∧
    ((ModelComponent.mk 0 0 (Status.new 0 0) : ModelComponent Nat Nat Nat Nat).update
        1 5).2.status.props_dirty = true ∧
    ((ModelComponent.mk 1 0 (Status.new 0 0) : ModelComponent Nat Nat Nat Nat).update
        1 5).1 = none ∧
    ((ModelComponent.mk 1 0 (Status.new 0 0) : ModelComponent Nat Nat Nat Nat).update
        1 5).2.status.props_dirty = false := by
  have h1 := (component_update_props_comparison
    (ModelComponent.mk 0 0 (Status.new 0 0) : ModelComponent Nat Nat Nat Nat) 1 5).2.2
    (by decide)
  have h2 := (component_update_props_comparison
    (ModelComponent.mk 1 0 (Status.new 0 0) : ModelComponent Nat Nat Nat Nat) 1 5).2.1
    (by decide)
  exact ⟨h1.1, h1.2.2, h2.1, h2.2.trans rfl⟩
